import Mathlib

/-!
Shallow embedding of the docu-query ingestion pipeline core:
`src/apps/ingestion-service/src/worker.py` (extraction chains, retry policy,
`process_document`) and `src/apps/ingestion-service/src/scheduler.py`
(`enqueue_pending`), over the data model of
`src/apps/ingestion-service/src/models.py` (`RawDocument`, `RawChunk`).

Modelling conventions:
- File bytes are abstracted as `Nat` tokens; the concrete extraction and
  OCR backends, S3 fetch, and hashing are oracles supplied in a `WorkerEnv`
  (they are external collaborators of the core).
- The database and the S3 quarantine bucket are explicit state
  (`PipelineState`); a committed SQL `update ... where doc_id == id` is
  `updateDoc`, which rewrites every row whose `doc_id` matches.
- A Python exception raised by a backend inside `extract_text_from_pdf` /
  `ocr_image` is the `none` case of that backend's oracle; the functions are
  total, mirroring the source's blanket `except Exception: pass` handlers.
-/

/-- One row of the `raw_documents` table (models.py, `RawDocument`).
`doc_id` abstracts the UUID primary key; `ingest_ts` abstracts the
creation timestamp (used for the ordering question of the scheduler). -/
structure Doc where
  doc_id : Nat
  source_uri : String
  file_hash : String
  file_type : String
  parse_status : String
  retry_count : Nat
  error_message : Option String
  ingest_ts : Nat
deriving DecidableEq, Repr

/-- One row of the `raw_chunks` table (models.py, `RawChunk`); only the
fields the pipeline writes are kept (`page_number`/`start_token`/`end_token`
are always NULL in this scope, and `chunk_id` is a fresh UUID that no logic
reads back). -/
structure Chunk where
  doc_id : Nat
  chunk_text : String
deriving DecidableEq, Repr

/-- Job descriptor published by the scheduler and consumed by the worker
(scheduler.py lines 25-30 / worker.py lines 128-134). -/
structure Payload where
  doc_id : Nat
  source_uri : String
  file_type : String
  file_hash : String
deriving DecidableEq, Repr

/-- The shared mutable state: the document table, the chunk table, the keys
present in the S3 quarantine bucket, and the Redis queue contents. -/
structure PipelineState where
  docs : List Doc
  chunks : List Chunk
  quarantine : List String
  queue : List Payload
deriving DecidableEq, Repr

/-- The extraction / OCR backends as oracles keyed by the (abstracted) file
bytes.  `none` means the backend raised (timeout, connection error,
malformed payload); `some` is its returned value.
- `pdfLocal`: pdfplumber whole-document extraction (worker.py 74-77),
  `some t` being the accumulated page text.
- `tika`: the Tika REST call (worker.py 84-89), `some (status, body)`.
- `paddle`: the PaddleOCR REST call (worker.py 100-104),
  `some (status, textField)` where `textField` is the optional `"text"`
  field of the JSON response.
- `tess`: the local Tesseract subprocess (worker.py 110-123), `some stdout`.
- `firstPage`: pdfplumber extraction of the first page only
  (worker.py 62-64), used by `is_scanned_pdf`. -/
structure ExtractOracles where
  pdfLocal : Nat → Option String
  tika : Nat → Option (Nat × String)
  paddle : Nat → Option (Nat × Option String)
  tess : Nat → Option String
  firstPage : Nat → Option String

/-- The worker's external collaborators: S3 download by `source_uri`
(`none` = raise, worker.py 44-49), SHA-256 recomputation (worker.py 51-54),
the text of the exception raised by a failed fetch (captured at
worker.py 235 as `str(e)`), the text of the `ValueError` raised by
`PARSE_SUCCESS.labels(...)` at worker.py 224 — the counter is constructed
at lines 35-38 with no `labelnames`, so `prometheus_client` raises
deterministically on every `.labels()` call — the extraction oracles and
the configured `MAX_RETRIES` (config.py). -/
structure WorkerEnv where
  s3get : String → Option Nat
  sha256 : Nat → String
  fetchErrMsg : String → String
  metricsErrMsg : String
  oracles : ExtractOracles
  maxRetries : Nat

/-- Python's `not s.strip()`: true iff the string has no non-whitespace
character.  (The source only ever uses `strip()` in truthiness tests, so
blankness is all the embedding needs.) -/
def pyBlank (s : String) : Bool :=
  s.data.all Char.isWhitespace

/-- worker.py `is_scanned_pdf` (lines 56-68): scanned iff the first page's
text strips to empty, and any exception also classifies as scanned. -/
def is_scanned_pdf (firstPage : Option String) : Bool :=
  match firstPage with
  | some t => pyBlank t
  | none => true

/-- worker.py `extract_text_from_pdf` (lines 70-95): try pdfplumber and
return its text if it strips non-empty; on empty output or an exception
fall through to Tika, whose body is returned only for a 200 response with
a non-whitespace body; everything else yields `""`. -/
def extract_text_from_pdf (lo : Option String) (tika : Option (Nat × String)) : String :=
  let fallback :=
    match tika with
    | some (code, body) => if code = 200 ∧ ¬ pyBlank body then body else ""
    | none => ""
  match lo with
  | some t => if ¬ pyBlank t then t else fallback
  | none => fallback

/-- worker.py `ocr_image` (lines 97-125): try the PaddleOCR service and
return its `"text"` field for a 200 response whose field is present and
truthy (a non-empty string); otherwise fall back to Tesseract, returning
its stdout verbatim, or `""` if the subprocess raised. -/
def ocr_image (paddle : Option (Nat × Option String)) (tess : Option String) : String :=
  let fallback := tess.getD ""
  match paddle with
  | some (code, some t) => if code = 200 ∧ t ≠ "" then t else fallback
  | some (_, none) => fallback
  | none => fallback

/-- worker.py lines 168-173: dispatch on the (possibly reclassified)
`file_type` — `"pdf"` takes the text chain, anything else the OCR chain. -/
def run_extraction (env : WorkerEnv) (ftype : String) (data : Nat) : String :=
  if ftype = "pdf" then
    extract_text_from_pdf (env.oracles.pdfLocal data) (env.oracles.tika data)
  else
    ocr_image (env.oracles.paddle data) (env.oracles.tess data)

/-- `db.query(RawDocument).filter(RawDocument.doc_id == doc_id).one()`:
first row with the given primary key (`doc_id` is unique). -/
def findDoc (docs : List Doc) (id : Nat) : Option Doc :=
  docs.find? (fun d => d.doc_id == id)

/-- A committed `update(RawDocument).where(RawDocument.doc_id == id)`:
rewrite every row whose `doc_id` matches (there is at most one). Note the
update carries no condition on `parse_status`. -/
def updateDoc (docs : List Doc) (id : Nat) (f : Doc → Doc) : List Doc :=
  docs.map (fun d => if d.doc_id == id then f d else d)

/-- The quarantine key `f"{doc_id}.pdf"` (worker.py 146 and 189). -/
def qkey (id : Nat) : String :=
  toString id ++ ".pdf"

/-- worker.py `process_document` (lines 127-239).
- No matching row: `.one()` raises, the catch-all `except` then runs an
  update that matches no row, so the state is unchanged.
- Fetch failure: the catch-all `except` marks the document `failed` with
  the exception text (worker.py 227-237); no quarantine copy is made.
- Hash mismatch (worker.py 144-158): quarantine copy under
  `f"{doc_id}.pdf"`, then `parse_status="failed"`,
  `error_message="Hash mismatch"`; no extraction.
- Classification (worker.py 160-166): a `"pdf"` row detected as scanned is
  persisted as `file_type="scanned"` before extraction.
- Validation (worker.py 176-201): whitespace-only or shorter-than-50 text
  either increments `retry_count` and returns the row to `"pending"`, or —
  when `retry_count + 1 >= MAX_RETRIES` — quarantines and marks `failed`
  with `"Extraction failed after retries"` (leaving `retry_count` as is).
- Otherwise (worker.py 203-220): insert one chunk row and mark the
  document `"success"`, clearing `error_message`; this is committed.  Then
  the metrics step (worker.py 222-224) calls `PARSE_SUCCESS.labels(...)`
  on a counter constructed with no `labelnames` (lines 35-38), which
  raises `ValueError`; the catch-all (227-237) thereupon rewrites the row
  to `"failed"` with the exception text and commits again — so a run that
  inserts a chunk never rests at `"success"`.
All updates are keyed only on `doc_id` — none is conditioned on the row's
current `parse_status`. -/
def process_document (env : WorkerEnv) (payload : Payload) (st : PipelineState) : PipelineState :=
  match findDoc st.docs payload.doc_id with
  | none => st
  | some doc_row =>
    match env.s3get doc_row.source_uri with
    | none =>
      { st with docs := updateDoc st.docs payload.doc_id (fun d =>
          { d with parse_status := "failed",
                   error_message := some (env.fetchErrMsg doc_row.source_uri) }) }
    | some data =>
      if env.sha256 data ≠ doc_row.file_hash then
        { st with
          docs := updateDoc st.docs payload.doc_id (fun d =>
            { d with parse_status := "failed", error_message := some "Hash mismatch" }),
          quarantine := st.quarantine ++ [qkey payload.doc_id] }
      else
        let is_scanned := doc_row.file_type == "pdf" && is_scanned_pdf (env.oracles.firstPage data)
        let docs1 := if is_scanned then
            updateDoc st.docs payload.doc_id (fun d => { d with file_type := "scanned" })
          else st.docs
        let ftype := if is_scanned then "scanned" else doc_row.file_type
        let extracted_text := run_extraction env ftype data
        if pyBlank extracted_text ∨ extracted_text.length < 50 then
          if doc_row.retry_count + 1 < env.maxRetries then
            { st with docs := updateDoc docs1 payload.doc_id (fun d =>
                { d with retry_count := doc_row.retry_count + 1, parse_status := "pending" }) }
          else
            { st with
              docs := updateDoc docs1 payload.doc_id (fun d =>
                { d with parse_status := "failed",
                         error_message := some "Extraction failed after retries" }),
              quarantine := st.quarantine ++ [qkey payload.doc_id] }
        else
          { st with
            docs := updateDoc
              (updateDoc docs1 payload.doc_id (fun d =>
                { d with parse_status := "success", error_message := none }))
              payload.doc_id (fun d =>
                { d with parse_status := "failed",
                         error_message := some env.metricsErrMsg }),
            chunks := st.chunks ++ [{ doc_id := payload.doc_id, chunk_text := extracted_text }] }

/-- scheduler.py `BATCH_SIZE` (line 13). -/
def BATCH_SIZE : Nat := 50

/-- scheduler.py line 18: `select(RawDocument).where(parse_status ==
"pending").limit(BATCH_SIZE)`.  The query has no `order_by`, so the rows
come back in the store's row order; the embedding takes the first
`BATCH_SIZE` pending rows in table order. -/
def selectPending (docs : List Doc) : List Doc :=
  (docs.filter (fun d => d.parse_status == "pending")).take BATCH_SIZE

/-- The job descriptor built at scheduler.py lines 25-30. -/
def mkPayload (d : Doc) : Payload :=
  { doc_id := d.doc_id, source_uri := d.source_uri,
    file_type := d.file_type, file_hash := d.file_hash }

/-- scheduler.py `enqueue_pending` (lines 15-42): select up to `BATCH_SIZE`
pending rows; if none, return.  Otherwise `rpush` one payload per row
(each push takes effect immediately — Redis is not transactional).  The
subsequent batch status update is built from the name `doc_ids`, which is
never defined (line 33 assigns `doc.ids` instead), so evaluating line 36
raises `NameError` after the publish loop: `db.commit()` never runs and no
document status changes. -/
def enqueue_pending (st : PipelineState) : PipelineState :=
  let pending := selectPending st.docs
  if pending.isEmpty then st
  else { st with queue := st.queue ++ pending.map mkPayload }

/-- The retry decision inlined at worker.py lines 176-186, as the spec's
`decide(extractedText, retryCount, maxRetries)` function.  The minimum
content threshold is the literal `50` at worker.py line 176. -/
inductive Decision where
  | Accept
  | Retry
  | Quarantine
deriving DecidableEq, Repr

namespace RetryPolicy

/-- The decision logic of worker.py lines 176-186: deficient output
(whitespace-only or fewer than 50 characters) retries while
`retry_count + 1 < MAX_RETRIES` and otherwise quarantines; everything
else is accepted. -/
def decide (extractedText : String) (retryCount maxRetries : Nat) : Decision :=
  if pyBlank extractedText ∨ extractedText.length < 50 then
    if retryCount + 1 < maxRetries then Decision.Retry else Decision.Quarantine
  else Decision.Accept

end RetryPolicy

/-- Projection: the `parse_status` of the row with the given id. -/
def statusOf (st : PipelineState) (id : Nat) : Option String :=
  (findDoc st.docs id).map (fun d => d.parse_status)

/-- Projection: the `retry_count` of the row with the given id. -/
def retryOf (st : PipelineState) (id : Nat) : Option Nat :=
  (findDoc st.docs id).map (fun d => d.retry_count)

/-- Projection: the `error_message` of the row with the given id. -/
def errorOf (st : PipelineState) (id : Nat) : Option (Option String) :=
  (findDoc st.docs id).map (fun d => d.error_message)

/-- Number of chunk rows carrying the given `doc_id`. -/
def chunkCount (st : PipelineState) (id : Nat) : Nat :=
  (st.chunks.filter (fun c => c.doc_id == id)).length

/-! ### Outcome predicates used to state the extraction-chain claims -/

/-- The local pdfplumber stage "yields nothing": it raised, or its
accumulated text strips to empty. -/
def localYieldsNothing (lo : Option String) : Prop :=
  lo = none ∨ ∃ t, lo = some t ∧ pyBlank t = true

/-- The Tika stage is an error or empty output: it raised, responded with
a non-200 status, or returned a body that strips to empty. -/
def tikaEmptyOrError (rm : Option (Nat × String)) : Prop :=
  rm = none ∨ ∃ c b, rm = some (c, b) ∧ (c ≠ 200 ∨ pyBlank b = true)

/-- The PaddleOCR stage is an error or empty output: it raised (including
a malformed JSON payload), responded non-200, omitted the `"text"` field,
or returned a text that strips to empty. -/
def paddleEmptyOrError (pd : Option (Nat × Option String)) : Prop :=
  pd = none ∨ ∃ c t, pd = some (c, t) ∧
    (c ≠ 200 ∨ t = none ∨ ∃ s, t = some s ∧ pyBlank s = true)

/-- The Tesseract stage is an error or empty output: the subprocess raised
or its stdout strips to empty. -/
def tessEmptyOrError (ts : Option String) : Prop :=
  ts = none ∨ ∃ s, ts = some s ∧ pyBlank s = true

/-! ### Concrete instances used by witnesses and counterexamples -/

/-- A plausible extraction result, 80 characters of real text. -/
def longText : String :=
  "This is a long enough piece of real extracted text, well over fifty characters."

/-- Exactly forty characters of real text. -/
def t40Text : String :=
  "This document has some real text in it!!"

/-- An environment where every job reaches the chunk-inserting path: the
fetch returns bytes `0` hashing to `"h"`, the first PDF page has text, and
local pdfplumber extraction yields `longText` (which passes validation). -/
def envAccept : WorkerEnv :=
  { s3get := fun _ => some 0
    sha256 := fun _ => "h"
    fetchErrMsg := fun u => "fetch failed: " ++ u
    metricsErrMsg := "No label names were set when constructing documents_parsed_success_total"
    oracles :=
      { pdfLocal := fun _ => some longText
        tika := fun _ => none
        paddle := fun _ => none
        tess := fun _ => none
        firstPage := fun _ => some "first page text" }
    maxRetries := 3 }

/-- An environment where fetch and integrity succeed but every extraction
and OCR backend fails or yields nothing. -/
def envEmptyOCR : WorkerEnv :=
  { s3get := fun _ => some 0
    sha256 := fun _ => "h"
    fetchErrMsg := fun u => "fetch failed: " ++ u
    metricsErrMsg := "No label names were set when constructing documents_parsed_success_total"
    oracles :=
      { pdfLocal := fun _ => none
        tika := fun _ => none
        paddle := fun _ => none
        tess := fun _ => none
        firstPage := fun _ => none }
    maxRetries := 3 }

/-- An environment whose recomputed hash `"other"` never matches the
recorded `"h"`. -/
def envMismatch : WorkerEnv :=
  { s3get := fun _ => some 0
    sha256 := fun _ => "other"
    fetchErrMsg := fun u => "fetch failed: " ++ u
    metricsErrMsg := "No label names were set when constructing documents_parsed_success_total"
    oracles :=
      { pdfLocal := fun _ => some longText
        tika := fun _ => none
        paddle := fun _ => none
        tess := fun _ => none
        firstPage := fun _ => some "first page text" }
    maxRetries := 3 }

/-- An environment where the object store fetch always raises. -/
def envNoFetch : WorkerEnv :=
  { s3get := fun _ => none
    sha256 := fun _ => "h"
    fetchErrMsg := fun u => "NoSuchKey: " ++ u
    metricsErrMsg := "No label names were set when constructing documents_parsed_success_total"
    oracles :=
      { pdfLocal := fun _ => some longText
        tika := fun _ => none
        paddle := fun _ => none
        tess := fun _ => none
        firstPage := fun _ => some "first page text" }
    maxRetries := 3 }

/-- A queued PDF document whose extraction will succeed under `envAccept`. -/
def docQueuedPdf : Doc :=
  { doc_id := 1, source_uri := "s3://app-uploads/1.pdf", file_hash := "h",
    file_type := "pdf", parse_status := "queued", retry_count := 0,
    error_message := none, ingest_ts := 10 }

/-- An image document that already reached the terminal status `success`. -/
def docSuccessImage : Doc :=
  { doc_id := 1, source_uri := "s3://app-uploads/1.png", file_hash := "h",
    file_type := "image", parse_status := "success", retry_count := 0,
    error_message := none, ingest_ts := 10 }

/-- A scanned document about to exhaust its retries under `envEmptyOCR`. -/
def docScanned : Doc :=
  { doc_id := 2, source_uri := "s3://app-uploads/2.pdf", file_hash := "h",
    file_type := "scanned", parse_status := "queued", retry_count := 0,
    error_message := none, ingest_ts := 11 }

/-- A pending document awaiting scheduling. -/
def docPending : Doc :=
  { doc_id := 3, source_uri := "s3://app-uploads/3.pdf", file_hash := "h",
    file_type := "pdf", parse_status := "pending", retry_count := 0,
    error_message := none, ingest_ts := 12 }

/-- Pending document number `i`, created at time `100 - i`: higher row
position means older creation time, the worst case for the unordered
scheduler query. -/
def mkPendingDoc (i : Nat) : Doc :=
  { doc_id := i, source_uri := "", file_hash := "", file_type := "pdf",
    parse_status := "pending", retry_count := 0, error_message := none,
    ingest_ts := 100 - i }

/-- Fifty-one pending documents in row order `0, …, 50`, with creation
times strictly decreasing, so the last row is the oldest document. -/
def docs51 : List Doc := (List.range 51).map mkPendingDoc

/-- State holding just `docQueuedPdf`. -/
def stQueuedPdf : PipelineState :=
  { docs := [docQueuedPdf], chunks := [], quarantine := [], queue := [] }

/-- State holding `docSuccessImage` together with its existing chunk. -/
def stSuccessImage : PipelineState :=
  { docs := [docSuccessImage], chunks := [{ doc_id := 1, chunk_text := longText }],
    quarantine := [], queue := [] }

/-- State holding just `docScanned`. -/
def stScanned : PipelineState :=
  { docs := [docScanned], chunks := [], quarantine := [], queue := [] }

/-- State holding just `docPending`. -/
def stPending : PipelineState :=
  { docs := [docPending], chunks := [], quarantine := [], queue := [] }

/-- Three successive deliveries of the `docScanned` job under `envEmptyOCR`:
the scenario of one attempt per configured retry (`MAX_RETRIES = 3`). -/
def threeAttempts : PipelineState :=
  process_document envEmptyOCR (mkPayload docScanned)
    (process_document envEmptyOCR (mkPayload docScanned)
      (process_document envEmptyOCR (mkPayload docScanned) stScanned))

/-! ### Helper lemmas about the row-keyed update -/

/-- Unfolding `findDoc` over a cons cell. -/
theorem findDoc_cons (d : Doc) (ds : List Doc) (id : Nat) :
    findDoc (d :: ds) id = if d.doc_id == id then some d else findDoc ds id := by
  by_cases h : (d.doc_id == id) = true
  · rw [if_pos h]
    exact List.find?_cons_of_pos _ h
  · rw [if_neg h]
    exact List.find?_cons_of_neg _ (by simpa using h)

/-- Unfolding `updateDoc` over a cons cell. -/
theorem updateDoc_cons (d : Doc) (ds : List Doc) (id : Nat) (f : Doc → Doc) :
    updateDoc (d :: ds) id f = (if d.doc_id == id then f d else d) :: updateDoc ds id f :=
  rfl

/-- An update keyed on one `doc_id` does not change what a lookup of a
different `doc_id` returns, provided the update preserves `doc_id` (every
update in the pipeline does). -/
theorem findDoc_updateDoc_ne (docs : List Doc) (id id2 : Nat) (f : Doc → Doc)
    (hf : ∀ d, (f d).doc_id = d.doc_id) (h : id2 ≠ id) :
    findDoc (updateDoc docs id f) id2 = findDoc docs id2 := by
  induction docs with
  | nil => rfl
  | cons d ds ih =>
    rw [updateDoc_cons, findDoc_cons, findDoc_cons]
    by_cases hd : d.doc_id = id
    · simp [hd, hf d, Ne.symm h, ih]
    · simp [hd, ih]

/-- Looking up the updated `doc_id` after the update returns the updated
row, provided the update preserves `doc_id`. -/
theorem findDoc_updateDoc_eq (docs : List Doc) (id : Nat) (f : Doc → Doc)
    (hf : ∀ d, (f d).doc_id = d.doc_id) :
    findDoc (updateDoc docs id f) id = (findDoc docs id).map f := by
  induction docs with
  | nil => rfl
  | cons d ds ih =>
    rw [updateDoc_cons, findDoc_cons, findDoc_cons]
    by_cases hd : d.doc_id = id
    · simp [hd, hf d]
    · simp [hd, ih]

/-! ### C4 — Retry Policy -/

/-- C4 (counterexample): the minimum content threshold in the code is 50
characters (worker.py line 176), so forty characters of real text are not
accepted: `decide(<40 chars of real text>, 0, 3) = Retry`, refuting the
claim's `Accept`. -/
theorem forty_char_text_is_retried :
    t40Text.length = 40 ∧ pyBlank t40Text = false ∧
    RetryPolicy.decide t40Text 0 3 = Decision.Retry ∧
    RetryPolicy.decide t40Text 0 3 ≠ Decision.Accept := by
  decide

/-- C4 (amended): the retry decision is a deterministic function of
`(extractedText, retryCount, maxRetries)`: `Accept` exactly when the text
has non-whitespace content and its length is at least the threshold of 50
characters; `Retry` when below the threshold and `retryCount + 1 <
maxRetries`; `Quarantine` when below the threshold and `retryCount + 1 >=
maxRetries`; `decide("", 0, 3) = Retry`, `decide("", 2, 3) = Quarantine`,
and fifty or more characters of real text with `retryCount = 0`,
`maxRetries = 3` are accepted. -/
theorem retry_decide_characterization :
    ∀ (t : String) (rc mr : Nat),
      (RetryPolicy.decide t rc mr = Decision.Accept ↔
        (pyBlank t = false ∧ 50 ≤ t.length)) ∧
      (RetryPolicy.decide t rc mr = Decision.Retry ↔
        ((pyBlank t = true ∨ t.length < 50) ∧ rc + 1 < mr)) ∧
      (RetryPolicy.decide t rc mr = Decision.Quarantine ↔
        ((pyBlank t = true ∨ t.length < 50) ∧ mr ≤ rc + 1)) ∧
      RetryPolicy.decide "" 0 3 = Decision.Retry ∧
      RetryPolicy.decide "" 2 3 = Decision.Quarantine ∧
      RetryPolicy.decide longText 0 3 = Decision.Accept ∧ 50 ≤ longText.length := by
  intro t rc mr
  refine ⟨?_, ?_, ?_, by decide, by decide, by decide, by decide⟩
  all_goals unfold RetryPolicy.decide
  all_goals cases hb : pyBlank t
  all_goals by_cases hl : t.length < 50
  all_goals by_cases h2 : rc + 1 < mr
  all_goals simp [hb, hl, h2]
  all_goals omega

/-! ### C6 — scheduler publish vs. status update -/

/-- C6 (code bug): the scheduler publishes every selected pending document
to the queue, but the batch status update is built from the undefined name
`doc_ids` (scheduler.py line 33 assigns `doc.ids` instead), so it raises
`NameError` after the publish loop and the queued mark never commits: a
published document is left in status `pending` and will be enqueued again
on the next run. -/
theorem scheduler_mark_failure_leaves_pending_enqueued :
    (enqueue_pending stPending).queue = [mkPayload docPending] ∧
    statusOf stPending 3 = some "pending" ∧
    statusOf (enqueue_pending stPending) 3 = some "pending" := by
  decide

/-! ### C7 — scheduler selection -/

/-- C7 (counterexample): the pending query has no `order_by`
(scheduler.py line 18), so selection follows row order: among 51 pending
documents whose creation times decrease with row position, the newest
document (row 0) is selected while the oldest (row 50) is left out. -/
theorem older_pending_doc_left_unselected :
    mkPendingDoc 0 ∈ selectPending docs51 ∧
    mkPendingDoc 50 ∈ docs51 ∧
    (mkPendingDoc 50).parse_status = "pending" ∧
    mkPendingDoc 50 ∉ selectPending docs51 ∧
    (mkPendingDoc 50).ingest_ts < (mkPendingDoc 0).ingest_ts := by
  decide

/-- C7 (amended): every scheduler run selects at most `BATCH_SIZE`
documents and every selected document has status `pending`; the selection
is in the store's row order, with no ordering by creation time. -/
theorem selectPending_bounded_and_pending (docs : List Doc) :
    (selectPending docs).length ≤ BATCH_SIZE ∧
    ∀ d ∈ selectPending docs, d.parse_status = "pending" := by
  constructor
  · exact List.length_take_le _ _
  · intro d hd
    have hmem : d ∈ docs.filter (fun d => d.parse_status == "pending") :=
      List.take_subset _ _ hd
    have := (List.mem_filter.mp hmem).2
    simpa using this

/-- C7 (witness): the amended selection theorem applied to a one-document
store. -/
theorem selectPending_bounded_and_pending_witness :
    (selectPending [docPending]).length ≤ BATCH_SIZE ∧
    docPending.parse_status = "pending" :=
  ⟨(selectPending_bounded_and_pending [docPending]).1,
   (selectPending_bounded_and_pending [docPending]).2 docPending (by decide)⟩

/-! ### C10 — payload independence -/

/-- C10: `process_document` reads `source_uri`, `file_hash` and
`file_type` fresh from the document row (worker.py lines 141-144, 161,
170) and uses the job payload only through `doc_id`, so two payloads
agreeing on `doc_id` produce identical side effects on the same state. -/
theorem process_document_depends_only_on_doc_id
    (env : WorkerEnv) (p1 p2 : Payload) (st : PipelineState)
    (h : p1.doc_id = p2.doc_id) :
    process_document env p1 st = process_document env p2 st := by
  cases p1
  cases p2
  cases h
  rfl

/-- C10 (witness): two payloads for document 1 that disagree on
`source_uri`, `file_type` and `file_hash` produce the same result state. -/
theorem process_document_depends_only_on_doc_id_witness :
    process_document envAccept (mkPayload docQueuedPdf) stQueuedPdf =
      process_document envAccept
        { doc_id := 1, source_uri := "s3://elsewhere/echo.png",
          file_type := "image", file_hash := "bogus" } stQueuedPdf :=
  process_document_depends_only_on_doc_id envAccept _ _ stQueuedPdf rfl

/-! ### Branch lemmas for `process_document` -/

/-- Fetch failure branch (worker.py 142 raising into 227-237): the row is
marked `failed` with the exception text and nothing else changes. -/
theorem process_fetch_fail (env : WorkerEnv) (p : Payload) (st : PipelineState)
    (doc_row : Doc)
    (hfind : findDoc st.docs p.doc_id = some doc_row)
    (hget : env.s3get doc_row.source_uri = none) :
    process_document env p st =
      { st with docs := updateDoc st.docs p.doc_id (fun d =>
          { d with parse_status := "failed",
                   error_message := some (env.fetchErrMsg doc_row.source_uri) }) } := by
  simp [process_document, hfind, hget]

/-- Integrity failure branch (worker.py 144-158): quarantine copy plus the
`failed`/`"Hash mismatch"` update. -/
theorem process_hash_mismatch (env : WorkerEnv) (p : Payload) (st : PipelineState)
    (doc_row : Doc) (data : Nat)
    (hfind : findDoc st.docs p.doc_id = some doc_row)
    (hget : env.s3get doc_row.source_uri = some data)
    (hne : env.sha256 data ≠ doc_row.file_hash) :
    process_document env p st =
      { st with
        docs := updateDoc st.docs p.doc_id (fun d =>
          { d with parse_status := "failed", error_message := some "Hash mismatch" }),
        quarantine := st.quarantine ++ [qkey p.doc_id] } := by
  simp [process_document, hfind, hget, hne]

/-- Deficient-extraction retry branch for an already-scanned document with
empty OCR output (worker.py 176-186): increment `retry_count`, back to
`pending`. -/
theorem process_scanned_empty_retry (env : WorkerEnv) (p : Payload) (st : PipelineState)
    (doc_row : Doc) (data : Nat)
    (hfind : findDoc st.docs p.doc_id = some doc_row)
    (hget : env.s3get doc_row.source_uri = some data)
    (hhash : env.sha256 data = doc_row.file_hash)
    (hft : doc_row.file_type = "scanned")
    (hpad : env.oracles.paddle data = none)
    (htess : env.oracles.tess data = none)
    (hlt : doc_row.retry_count + 1 < env.maxRetries) :
    process_document env p st =
      { st with docs := updateDoc st.docs p.doc_id (fun d =>
          { d with retry_count := doc_row.retry_count + 1, parse_status := "pending" }) } := by
  simp [process_document, hfind, hget, hhash, hft, hpad, htess, hlt,
    run_extraction, ocr_image, is_scanned_pdf, pyBlank]

/-- Deficient-extraction terminal branch for an already-scanned document
with empty OCR output and exhausted retries (worker.py 187-200):
quarantine copy plus the `failed` update, `retry_count` untouched. -/
theorem process_scanned_empty_exhaust (env : WorkerEnv) (p : Payload) (st : PipelineState)
    (doc_row : Doc) (data : Nat)
    (hfind : findDoc st.docs p.doc_id = some doc_row)
    (hget : env.s3get doc_row.source_uri = some data)
    (hhash : env.sha256 data = doc_row.file_hash)
    (hft : doc_row.file_type = "scanned")
    (hpad : env.oracles.paddle data = none)
    (htess : env.oracles.tess data = none)
    (hge : ¬ doc_row.retry_count + 1 < env.maxRetries) :
    process_document env p st =
      { st with
        docs := updateDoc st.docs p.doc_id (fun d =>
          { d with parse_status := "failed",
                   error_message := some "Extraction failed after retries" }),
        quarantine := st.quarantine ++ [qkey p.doc_id] } := by
  simp [process_document, hfind, hget, hhash, hft, hpad, htess, hge,
    run_extraction, ocr_image, is_scanned_pdf, pyBlank]

/-! ### C9 — fetch failure -/

/-- C9: when the object-store fetch fails, the worker records
`status = failed` with the captured exception text, makes no quarantine
copy, inserts no chunk, leaves `retry_count` unchanged, and the failure
does not escape `process_document` (the function is total and returns the
updated state). -/
theorem fetch_failure_fails_without_quarantine
    (env : WorkerEnv) (p : Payload) (st : PipelineState) (doc_row : Doc)
    (hfind : findDoc st.docs p.doc_id = some doc_row)
    (hget : env.s3get doc_row.source_uri = none) :
    statusOf (process_document env p st) p.doc_id = some "failed" ∧
    errorOf (process_document env p st) p.doc_id =
      some (some (env.fetchErrMsg doc_row.source_uri)) ∧
    retryOf (process_document env p st) p.doc_id = some doc_row.retry_count ∧
    (process_document env p st).quarantine = st.quarantine ∧
    (process_document env p st).chunks = st.chunks := by
  have h := process_fetch_fail env p st doc_row hfind hget
  have hfd : findDoc (process_document env p st).docs p.doc_id =
      some { doc_row with parse_status := "failed",
                          error_message := some (env.fetchErrMsg doc_row.source_uri) } := by
    simp only [h]
    rw [findDoc_updateDoc_eq _ _ _ (by intro d; rfl), hfind]
    rfl
  refine ⟨?_, ?_, ?_, ?_, ?_⟩
  · simp [statusOf, hfd]
  · simp [errorOf, hfd]
  · simp [retryOf, hfd]
  · simp [h]
  · simp [h]

/-- C9 (witness): the fetch-failure theorem applied to the queued PDF
document under the environment whose store always raises. -/
theorem fetch_failure_fails_without_quarantine_witness :
    statusOf (process_document envNoFetch (mkPayload docQueuedPdf) stQueuedPdf) 1 =
      some "failed" ∧
    errorOf (process_document envNoFetch (mkPayload docQueuedPdf) stQueuedPdf) 1 =
      some (some "NoSuchKey: s3://app-uploads/1.pdf") ∧
    retryOf (process_document envNoFetch (mkPayload docQueuedPdf) stQueuedPdf) 1 = some 0 ∧
    (process_document envNoFetch (mkPayload docQueuedPdf) stQueuedPdf).quarantine = [] ∧
    (process_document envNoFetch (mkPayload docQueuedPdf) stQueuedPdf).chunks = [] :=
  fetch_failure_fails_without_quarantine envNoFetch (mkPayload docQueuedPdf)
    stQueuedPdf docQueuedPdf rfl rfl

/-! ### C5 — integrity failure -/

/-- C5 (counterexample): on a hash mismatch the code writes
`error_message = "Hash mismatch"` (worker.py 155), not the claimed
`"integrity check failed"`. -/
theorem hash_mismatch_message_is_hash_mismatch :
    errorOf (process_document envMismatch (mkPayload docQueuedPdf) stQueuedPdf) 1 =
      some (some "Hash mismatch") ∧
    errorOf (process_document envMismatch (mkPayload docQueuedPdf) stQueuedPdf) 1 ≠
      some (some "integrity check failed") := by
  decide

/-- C5 (amended): when the fetched bytes hash to a value different from
the recorded `file_hash`, the worker copies the object to the quarantine
area under the key `f"{doc_id}.pdf"`, sets `status = failed` with
`error_message = "Hash mismatch"`, leaves `retry_count` unchanged, and
attempts no extraction (the resulting state is the same for every
extraction oracle, and no chunk is inserted). -/
theorem hash_mismatch_quarantines_and_fails
    (env : WorkerEnv) (p : Payload) (st : PipelineState) (doc_row : Doc) (data : Nat)
    (hfind : findDoc st.docs p.doc_id = some doc_row)
    (hget : env.s3get doc_row.source_uri = some data)
    (hne : env.sha256 data ≠ doc_row.file_hash) :
    statusOf (process_document env p st) p.doc_id = some "failed" ∧
    errorOf (process_document env p st) p.doc_id = some (some "Hash mismatch") ∧
    retryOf (process_document env p st) p.doc_id = some doc_row.retry_count ∧
    (process_document env p st).quarantine = st.quarantine ++ [qkey p.doc_id] ∧
    (process_document env p st).chunks = st.chunks := by
  have h := process_hash_mismatch env p st doc_row data hfind hget hne
  have hfd : findDoc (process_document env p st).docs p.doc_id =
      some { doc_row with parse_status := "failed",
                          error_message := some "Hash mismatch" } := by
    simp only [h]
    rw [findDoc_updateDoc_eq _ _ _ (by intro d; rfl), hfind]
    rfl
  refine ⟨?_, ?_, ?_, ?_, ?_⟩
  · simp [statusOf, hfd]
  · simp [errorOf, hfd]
  · simp [retryOf, hfd]
  · simp [h]
  · simp [h]

/-- C5 (witness): the amended integrity theorem applied to the queued PDF
document under the environment whose recomputed hash never matches. -/
theorem hash_mismatch_quarantines_and_fails_witness :
    statusOf (process_document envMismatch (mkPayload docQueuedPdf) stQueuedPdf) 1 =
      some "failed" ∧
    errorOf (process_document envMismatch (mkPayload docQueuedPdf) stQueuedPdf) 1 =
      some (some "Hash mismatch") ∧
    retryOf (process_document envMismatch (mkPayload docQueuedPdf) stQueuedPdf) 1 = some 0 ∧
    (process_document envMismatch (mkPayload docQueuedPdf) stQueuedPdf).quarantine =
      [qkey 1] ∧
    (process_document envMismatch (mkPayload docQueuedPdf) stQueuedPdf).chunks = [] :=
  hash_mismatch_quarantines_and_fails envMismatch (mkPayload docQueuedPdf)
    stQueuedPdf docQueuedPdf 0 rfl rfl (by decide)

/-! ### C3 — scanned document with persistently empty OCR -/

/-- C3 (counterexample): after three attempts with always-empty OCR and
`MAX_RETRIES = 3` the document ends `failed` with a quarantine copy, but
`retry_count` is `2`, not the claimed `3`: the terminal write
(worker.py 195-199) sets only `parse_status` and `error_message`. -/
theorem exhausted_retries_leave_retry_count_two :
    statusOf threeAttempts 2 = some "failed" ∧
    retryOf threeAttempts 2 = some 2 ∧
    retryOf threeAttempts 2 ≠ some 3 ∧
    threeAttempts.quarantine = [qkey 2] := by
  decide

/-- C3 (amended): for every scanned document with `retry_count = 0` whose
OCR backends yield nothing on every attempt, under `maxRetries = 3`, three
deliveries of its job end with `status = failed`,
`error_message = "Extraction failed after retries"`, a quarantine copy
under `f"{doc_id}.pdf"`, no chunk, and `retry_count = 2` (the terminal
write does not bump the counter to 3). -/
theorem scanned_empty_ocr_ends_failed_with_two_retries
    (env : WorkerEnv) (p : Payload) (st : PipelineState) (doc_row : Doc) (data : Nat)
    (hfind : findDoc st.docs p.doc_id = some doc_row)
    (hget : env.s3get doc_row.source_uri = some data)
    (hhash : env.sha256 data = doc_row.file_hash)
    (hft : doc_row.file_type = "scanned")
    (hrc : doc_row.retry_count = 0)
    (hmax : env.maxRetries = 3)
    (hpad : env.oracles.paddle data = none)
    (htess : env.oracles.tess data = none) :
    statusOf (process_document env p (process_document env p (process_document env p st)))
        p.doc_id = some "failed" ∧
    retryOf (process_document env p (process_document env p (process_document env p st)))
        p.doc_id = some 2 ∧
    errorOf (process_document env p (process_document env p (process_document env p st)))
        p.doc_id = some (some "Extraction failed after retries") ∧
    (process_document env p (process_document env p (process_document env p st))).quarantine =
      st.quarantine ++ [qkey p.doc_id] ∧
    (process_document env p (process_document env p (process_document env p st))).chunks =
      st.chunks := by
  have h1 := process_scanned_empty_retry env p st doc_row data hfind hget hhash hft hpad htess
    (by omega)
  have hfd1 : findDoc (process_document env p st).docs p.doc_id =
      some { doc_row with retry_count := doc_row.retry_count + 1, parse_status := "pending" } := by
    simp only [h1]
    rw [findDoc_updateDoc_eq _ _ _ (by intro d; rfl), hfind]
    rfl
  have h2 := process_scanned_empty_retry env p (process_document env p st)
    { doc_row with retry_count := doc_row.retry_count + 1, parse_status := "pending" } data
    hfd1 hget hhash hft hpad htess (by simp; omega)
  have hfd2 : findDoc (process_document env p (process_document env p st)).docs p.doc_id =
      some { doc_row with retry_count := doc_row.retry_count + 1 + 1,
                          parse_status := "pending" } := by
    simp only [h2]
    rw [findDoc_updateDoc_eq _ _ _ (by intro d; rfl), hfd1]
    rfl
  have h3 := process_scanned_empty_exhaust env p
    (process_document env p (process_document env p st))
    { doc_row with retry_count := doc_row.retry_count + 1 + 1, parse_status := "pending" } data
    hfd2 hget hhash hft hpad htess (by simp; omega)
  have hfd3 : findDoc (process_document env p (process_document env p
      (process_document env p st))).docs p.doc_id =
      some { doc_row with retry_count := doc_row.retry_count + 1 + 1,
                          parse_status := "failed",
                          error_message := some "Extraction failed after retries" } := by
    simp only [h3]
    rw [findDoc_updateDoc_eq _ _ _ (by intro d; rfl), hfd2]
    rfl
  refine ⟨?_, ?_, ?_, ?_, ?_⟩
  · simp [statusOf, hfd3]
  · simp [retryOf, hfd3, hrc]
  · simp [errorOf, hfd3]
  · rw [h3]
    show (process_document env p (process_document env p st)).quarantine ++ _ = _
    rw [h2]
    show (process_document env p st).quarantine ++ _ = _
    rw [h1]
  · rw [h3]
    show (process_document env p (process_document env p st)).chunks = _
    rw [h2]
    show (process_document env p st).chunks = _
    rw [h1]

/-- C3 (witness): the amended scenario theorem applied to the concrete
scanned document and the all-empty OCR environment; the endpoint equals
the concrete `threeAttempts` state. -/
theorem scanned_empty_ocr_ends_failed_with_two_retries_witness :
    statusOf threeAttempts 2 = some "failed" ∧
    retryOf threeAttempts 2 = some 2 ∧
    errorOf threeAttempts 2 = some (some "Extraction failed after retries") ∧
    threeAttempts.quarantine = [] ++ [qkey 2] ∧
    threeAttempts.chunks = [] :=
  scanned_empty_ocr_ends_failed_with_two_retries envEmptyOCR (mkPayload docScanned)
    stScanned docScanned 0 rfl rfl rfl rfl rfl rfl rfl rfl

/-! ### Non-target invariance and chunk accounting for `process_document` -/

/-- A worker run changes no row other than the one named by the job's
`doc_id`: the status of every other document is untouched. -/
theorem statusOf_process_document_ne
    (env : WorkerEnv) (p : Payload) (st : PipelineState) (id : Nat) (h : id ≠ p.doc_id) :
    statusOf (process_document env p st) id = statusOf st id := by
  have key : ∀ (docs : List Doc) (f : Doc → Doc), (∀ d, (f d).doc_id = d.doc_id) →
      findDoc (updateDoc docs p.doc_id f) id = findDoc docs id :=
    fun docs f hf => findDoc_updateDoc_ne docs p.doc_id id f hf h
  cases hfind : findDoc st.docs p.doc_id with
  | none => simp [process_document, hfind, statusOf]
  | some doc_row =>
    cases hget : env.s3get doc_row.source_uri with
    | none => simp [process_document, hfind, hget, statusOf, key]
    | some data =>
      simp only [process_document, hfind, hget]
      split
      · simp [statusOf, key]
      · split
        all_goals try split
        all_goals try split
        all_goals simp [statusOf, key]

/-- A worker run adds no chunk row for any document other than the one
named by the job's `doc_id`. -/
theorem chunkCount_process_document_ne
    (env : WorkerEnv) (p : Payload) (st : PipelineState) (id : Nat) (h : id ≠ p.doc_id) :
    chunkCount (process_document env p st) id = chunkCount st id := by
  have h' : p.doc_id ≠ id := Ne.symm h
  cases hfind : findDoc st.docs p.doc_id with
  | none => simp [process_document, hfind]
  | some doc_row =>
    cases hget : env.s3get doc_row.source_uri with
    | none => simp [process_document, hfind, hget, chunkCount]
    | some data =>
      simp only [process_document, hfind, hget]
      split
      · simp [chunkCount]
      · split
        all_goals try split
        all_goals try split
        all_goals simp [chunkCount, h']

/-- A worker run either leaves the target document's chunk count unchanged
or adds exactly one chunk.  It adds one exactly on the success path, and
that path does not rest at `success`: after the success commit the
metrics call (worker.py 224) raises `ValueError` on the label-less
counter, and the catch-all rewrites the row to `failed` with the
exception text. -/
theorem process_chunk_delta_target (env : WorkerEnv) (p : Payload) (st : PipelineState) :
    chunkCount (process_document env p st) p.doc_id = chunkCount st p.doc_id ∨
      (chunkCount (process_document env p st) p.doc_id = chunkCount st p.doc_id + 1 ∧
       statusOf (process_document env p st) p.doc_id = some "failed" ∧
       errorOf (process_document env p st) p.doc_id = some (some env.metricsErrMsg)) := by
  cases hfind : findDoc st.docs p.doc_id with
  | none => left; simp [process_document, hfind]
  | some doc_row =>
    cases hget : env.s3get doc_row.source_uri with
    | none => left; simp [process_document, hfind, hget, chunkCount]
    | some data =>
      simp only [process_document, hfind, hget]
      split
      · left; simp [chunkCount]
      · split
        · split
          · left
            split
            all_goals simp [chunkCount]
          · right
            refine ⟨?_, ?_, ?_⟩
            · simp [chunkCount]
            · simp [statusOf, findDoc_updateDoc_eq, hfind]
            · simp [errorOf, findDoc_updateDoc_eq, hfind]
        · split
          · left
            split
            all_goals simp [chunkCount]
          · right
            refine ⟨?_, ?_, ?_⟩
            · simp [chunkCount]
            · simp [statusOf, findDoc_updateDoc_eq, hfind]
            · simp [errorOf, findDoc_updateDoc_eq, hfind]

/-! ### C1 — chunk uniqueness -/

/-- C1 (counterexample): a single run whose extraction passes validation
leaves a chunk row while the document rests at `failed`, not `success`
(the metrics `ValueError` after the success commit is caught and the row
rewritten, worker.py 220-237) — so a chunk exists for a document that
never rests at `success`; and chunk insertion has no insert-if-absent
guard (worker.py 203-212), so delivering the same job descriptor twice
leaves two chunk rows for the document. -/
theorem redelivery_creates_second_chunk :
    statusOf (process_document envAccept (mkPayload docQueuedPdf) stQueuedPdf) 1 =
      some "failed" ∧
    statusOf (process_document envAccept (mkPayload docQueuedPdf) stQueuedPdf) 1 ≠
      some "success" ∧
    chunkCount (process_document envAccept (mkPayload docQueuedPdf) stQueuedPdf) 1 = 1 ∧
    chunkCount (process_document envAccept (mkPayload docQueuedPdf)
        (process_document envAccept (mkPayload docQueuedPdf) stQueuedPdf)) 1 = 2 ∧
    chunkCount (process_document envAccept (mkPayload docQueuedPdf)
        (process_document envAccept (mkPayload docQueuedPdf) stQueuedPdf)) 1 ≠ 1 := by
  decide

/-- C1 (amended): each single processing run inserts at most one chunk —
exactly one when extraction passes validation, none otherwise — and
inserts nothing for any other document; the chunk-inserting run does not
leave the document at `success`: the success commit is immediately
followed by the metrics `ValueError` (label-less counter, worker.py 224),
and the catch-all rewrites the row to `failed` with the exception text;
and chunk rows accumulate across runs, so redelivering the same job
inserts a second chunk instead of being idempotent. -/
theorem process_document_chunk_delta (env : WorkerEnv) (p : Payload) (st : PipelineState) :
    (∀ id, id ≠ p.doc_id →
      chunkCount (process_document env p st) id = chunkCount st id) ∧
    (chunkCount (process_document env p st) p.doc_id = chunkCount st p.doc_id ∨
      (chunkCount (process_document env p st) p.doc_id = chunkCount st p.doc_id + 1 ∧
       statusOf (process_document env p st) p.doc_id = some "failed" ∧
       errorOf (process_document env p st) p.doc_id = some (some env.metricsErrMsg))) :=
  ⟨fun id h => chunkCount_process_document_ne env p st id h,
   process_chunk_delta_target env p st⟩

/-- C1 (witness): the per-run chunk-delta theorem applied to the queued
PDF document, evaluating the non-target conjunct at document id 9. -/
theorem process_document_chunk_delta_witness :
    chunkCount (process_document envAccept (mkPayload docQueuedPdf) stQueuedPdf) 9 =
      chunkCount stQueuedPdf 9 :=
  (process_document_chunk_delta envAccept (mkPayload docQueuedPdf) stQueuedPdf).1 9
    (by decide)

/-! ### C2 — terminal-state invariant -/

/-- C2 (counterexample): outcome writes are unconditional updates keyed
only on `doc_id` (worker.py 181-185), so a redelivered job for a document
already in the terminal status `success` moves it back to `pending` (and
bumps `retry_count`) when the re-extraction comes back empty. -/
theorem redelivery_overwrites_terminal_status :
    statusOf stSuccessImage 1 = some "success" ∧
    statusOf (process_document envEmptyOCR (mkPayload docSuccessImage) stSuccessImage) 1 =
      some "pending" ∧
    retryOf (process_document envEmptyOCR (mkPayload docSuccessImage) stSuccessImage) 1 =
      some 1 := by
  decide

/-- C2 (amended): a scheduler run never changes any document's status (in
the source its queued mark always fails, and it only ever selects
`pending` rows), and a worker run never changes the status of a document
other than its job's `doc_id`; the claim fails only for a redelivered job
carrying the document's own id, because outcome writes are not
conditioned on the row still being `queued`/`pending`. -/
theorem terminal_status_stable_without_redelivery :
    (∀ (st : PipelineState) (id : Nat),
      statusOf (enqueue_pending st) id = statusOf st id) ∧
    (∀ (env : WorkerEnv) (p : Payload) (st : PipelineState) (id : Nat), id ≠ p.doc_id →
      statusOf (process_document env p st) id = statusOf st id) := by
  constructor
  · intro st id
    simp only [enqueue_pending]
    split <;> rfl
  · intro env p st id h
    exact statusOf_process_document_ne env p st id h

/-- C2 (witness): the stability theorem applied to the concrete pending
and queued states, evaluating the worker conjunct at document id 7. -/
theorem terminal_status_stable_without_redelivery_witness :
    statusOf (enqueue_pending stPending) 3 = statusOf stPending 3 ∧
    statusOf (process_document envAccept (mkPayload docQueuedPdf) stQueuedPdf) 7 =
      statusOf stQueuedPdf 7 :=
  ⟨terminal_status_stable_without_redelivery.1 stPending 3,
   terminal_status_stable_without_redelivery.2 envAccept (mkPayload docQueuedPdf)
     stQueuedPdf 7 (by decide)⟩

/-! ### C8 — extraction fallback chains -/

/-- C8: the text chain returns the local extractor's text whenever it has
non-whitespace content, independently of the remote backend (so the
fallback is never consulted); otherwise it returns the Tika body for a 200
response with content, and the empty string when Tika errors, responds
non-200, or yields only whitespace.  In the OCR chain a PaddleOCR error
falls through to Tesseract, whose output is returned verbatim, and when
both stages error or yield nothing the result is blank.  Both chains are
total functions: backend errors (`none` oracles) never escape. -/
theorem extraction_chain_shortcircuit_and_error_absorption :
    (∀ (t : String) (rm : Option (Nat × String)), pyBlank t = false →
      extract_text_from_pdf (some t) rm = t) ∧
    (∀ (lo : Option String) (b : String), localYieldsNothing lo → pyBlank b = false →
      extract_text_from_pdf lo (some (200, b)) = b) ∧
    (∀ (lo : Option String) (rm : Option (Nat × String)),
      localYieldsNothing lo → tikaEmptyOrError rm →
      extract_text_from_pdf lo rm = "") ∧
    (∀ (ts : Option String) (s : String), ts = some s →
      ocr_image none ts = s) ∧
    (∀ (pd : Option (Nat × Option String)) (ts : Option String),
      paddleEmptyOrError pd → tessEmptyOrError ts →
      pyBlank (ocr_image pd ts) = true) := by
  refine ⟨?_, ?_, ?_, ?_, ?_⟩
  · intro t rm ht
    simp [extract_text_from_pdf, ht]
  · intro lo b hlo hb
    rcases hlo with h | ⟨t, rfl, ht⟩
    · subst h
      simp [extract_text_from_pdf, hb]
    · simp [extract_text_from_pdf, ht, hb]
  · intro lo rm hlo hrm
    have hlo' : extract_text_from_pdf lo rm = extract_text_from_pdf none rm := by
      rcases hlo with h | ⟨t, rfl, ht⟩
      · rw [h]
      · simp [extract_text_from_pdf, ht]
    rw [hlo']
    rcases hrm with h2 | ⟨c, b, rfl, hcb⟩
    · rw [h2]
      rfl
    · rcases hcb with hc | hb
      · simp [extract_text_from_pdf, hc]
      · simp [extract_text_from_pdf, hb]
  · intro ts s hts
    subst hts
    simp [ocr_image]
  · intro pd ts hpd hts
    have hblank : pyBlank (ts.getD "") = true := by
      rcases hts with h | ⟨s, rfl, hs⟩
      · subst h
        decide
      · simpa using hs
    rcases hpd with h | ⟨c, t, rfl, hct⟩
    · subst h
      simpa [ocr_image] using hblank
    · rcases hct with hc | hnone | ⟨s, rfl, hs⟩
      · rcases t with _ | s
        · simpa [ocr_image] using hblank
        · simpa [ocr_image, hc] using hblank
      · subst hnone
        simpa [ocr_image] using hblank
      · by_cases hs0 : s = ""
        · subst hs0
          simpa [ocr_image] using hblank
        · by_cases hc : c = 200
          · subst hc
            simp [ocr_image, hs0, hs]
          · simpa [ocr_image, hc] using hblank

/-- C8 (witness): each conjunct of the extraction-chain theorem evaluated
at concrete backend outcomes. -/
theorem extraction_chain_shortcircuit_and_error_absorption_witness :
    extract_text_from_pdf (some longText) (some (200, "tika body")) = longText ∧
    extract_text_from_pdf none (some (200, longText)) = longText ∧
    extract_text_from_pdf (some "   ") (some (500, longText)) = "" ∧
    ocr_image none (some "tesseract output") = "tesseract output" ∧
    pyBlank (ocr_image (some (200, some "")) none) = true :=
  ⟨extraction_chain_shortcircuit_and_error_absorption.1 longText _ (by decide),
   extraction_chain_shortcircuit_and_error_absorption.2.1 none longText
     (Or.inl rfl) (by decide),
   extraction_chain_shortcircuit_and_error_absorption.2.2.1 (some "   ")
     (some (500, longText)) (Or.inr ⟨"   ", rfl, by decide⟩)
     (Or.inr ⟨500, longText, rfl, Or.inl (by decide)⟩),
   extraction_chain_shortcircuit_and_error_absorption.2.2.2.1 _ "tesseract output" rfl,
   extraction_chain_shortcircuit_and_error_absorption.2.2.2.2 (some (200, some ""))
     none (Or.inr ⟨200, some "", rfl, Or.inr (Or.inr ⟨"", rfl, by decide⟩)⟩)
     (Or.inl rfl)⟩
